import Mathlib

/-!
Verification development for the OSD provisioning module
(ceph_deploy/osd.py): a shallow embedding of its data model and
operations, with theorems about credential bootstrap, disk preparation,
status normalization, health checking and inventory correlation.
-/

set_option autoImplicit false
set_option maxRecDepth 4000

/-- Python exception values that the module can raise or observe.
`runtimeError` is RuntimeError (the validation / host-level error class),
`nameError` is a reference to an unbound name, `typeError` covers the
unpacking of an absent transport result, `valueError` covers failed
numeric conversions and JSON parse failures where they propagate,
`needDiskError` and `genericError` model the exception classes of the
companion exc module (see `hostLevelCaught`). -/
inductive PyErr where
  | runtimeError (msg : String)
  | nameError (n : String)
  | typeError
  | valueError
  | keyError
  | attributeError
  | indexError
  | needDiskError (host : String)
  | genericError (msg : String)
deriving DecidableEq, Repr

/-- A parsed JSON value, as produced by json.loads on the status and
topology payloads.  Numbers are rationals, which represent every JSON
numeric literal appearing in these payloads exactly. -/
inductive JValue where
  | str (s : String)
  | num (q : Rat)
  | bool (b : Bool)
  | null
  | arr (xs : List JValue)
  | obj (kvs : List (String × JValue))

/-- A parsed top-level JSON object: an ordered key/value list, the order
being the insertion order of the corresponding Python dict. -/
abbrev Jobj := List (String × JValue)

/-- Python int() applied to an exact rational: truncation toward zero. -/
def pyTrunc (q : Rat) : Int :=
  q.num.tdiv (q.den : Int)

/-- Python int(v) on a JSON value: ints/floats truncate, booleans map to
0/1, numeric strings parse (ValueError otherwise), anything else is a
TypeError. -/
def pyIntOf : JValue → Except PyErr Int
  | .num q => .ok (pyTrunc q)
  | .bool b => .ok (if b then 1 else 0)
  | .str s => match s.toInt? with
      | some n => .ok n
      | none => .error .valueError
  | .null => .error .typeError
  | .arr _ => .error .typeError
  | .obj _ => .error .typeError

/-- Python truthiness of a JSON value. -/
def truthy : JValue → Bool
  | .bool b => b
  | .str s => s != ""
  | .num q => q != 0
  | .null => false
  | .arr xs => !xs.isEmpty
  | .obj kvs => !kvs.isEmpty

/-- The per-field fixup in osd_tree / osd_status_check: the literal
string true / false becomes a real boolean (v == true only holds for
the string value), every other value is left alone.  Issue 8108. -/
def normalizeBool : JValue → JValue
  | .str s => if s = "true" then .bool true
      else if s = "false" then .bool false
      else .str s
  | v => v

/-- The loaded_json.items() loop of osd_tree / osd_status_check: apply
`normalizeBool` to every top-level field, keys and order unchanged. -/
def normalizeBools (j : Jobj) : Jobj :=
  j.map (fun kv => (kv.1, normalizeBool kv.2))

/-- A remote session as the module consumes it.  `execPath` models
executable path resolution (util/system.py, an external collaborator:
resolves the named executable to its remote path).  `check` models
remoto.process.check: for a given argv it yields either the parse
outcome of the captured stdout (`Except.error` standing for a
json.loads ValueError, `Except.ok` for the parsed object) or `none`
when the transport timed out and the gateway returned an absent result
instead of the (stdout, stderr, exit-code) triple. -/
structure Conn where
  execPath : String → String
  check : List String → Option (Except Unit Jobj)

/-- osd_tree: run ceph osd tree --format=json and normalize the
booleans.  There is no guard around the gateway call here, so an absent
transport result propagates (the unpacking TypeError); a JSON parse
failure degrades to the empty object. -/
def osd_tree (conn : Conn) (cluster : String) : Except PyErr Jobj :=
  let command := [conn.execPath "ceph", "--cluster=" ++ cluster,
    "osd", "tree", "--format=json"]
  match conn.check command with
  | none => .error .typeError
  | some (.error _) => .ok []
  | some (.ok j) => .ok (normalizeBools j)

/-- osd_status_check: run ceph osd stat --format=json.  An absent
transport result (remoto returning None on timeout) raises TypeError at
the tuple unpacking, which is caught and degraded to the empty status;
a JSON parse failure likewise degrades to the empty status. -/
def osd_status_check (conn : Conn) (cluster : String) : Jobj :=
  let command := [conn.execPath "ceph", "--cluster=" ++ cluster,
    "osd", "stat", "--format=json"]
  match conn.check command with
  | none => []
  | some (.error _) => []
  | some (.ok j) => normalizeBools j

/-- status.get(k, 0) followed by int(...): absent fields default to the
integer 0. -/
def getIntField (st : Jobj) (k : String) : Except PyErr Int :=
  match st.lookup k with
  | some v => pyIntOf v
  | none => .ok 0

/-- status.get(k, False) used as a condition: absent fields default to
False, present fields use Python truthiness. -/
def getFlagField (st : Jobj) (k : String) : Bool :=
  match st.lookup k with
  | some v => truthy v
  | none => false

/-- The warning line built by catch_osd_errors for a positive
difference: there %s %d OSD%s down/out, with the verb picked by
indexing with (difference != 1) and the plural s sliced away exactly
when the difference equals 1. -/
def diffWarning (difference : Int) (what : String) : String :=
  "there " ++ (if difference != 1 then "are" else "is") ++ " "
    ++ toString difference ++ " OSD"
    ++ (if difference == 1 then "" else "s") ++ " " ++ what

/-- catch_osd_errors: fetch the status snapshot, read the counts and
flags, and collect the advisory warning lines (down, out, full, near
full) in order.  Failures of the int conversions propagate; the
function itself never fails on an empty status. -/
def catch_osd_errors (conn : Conn) (cluster : String) :
    Except PyErr (List String) := do
  let status := osd_status_check conn cluster
  let osds ← getIntField status "num_osds"
  let up_osds ← getIntField status "num_up_osds"
  let in_osds ← getIntField status "num_in_osds"
  let full := getFlagField status "full"
  let nearfull := getFlagField status "nearfull"
  let w1 := if osds > up_osds then [diffWarning (osds - up_osds) "down"] else []
  let w2 := if osds > in_osds then [diffWarning (osds - in_osds) "out"] else []
  let w3 := if full then ["OSDs are full!"] else []
  let w4 := if nearfull then ["OSDs are near full!"] else []
  return w1 ++ w2 ++ w3 ++ w4

/-- The remote filesystem state the host-side helper operations act on:
`files` maps an existing path to its (first-line) content, `realpaths`
maps a symlink to its resolved target. -/
structure RemoteFS where
  files : List (String × String)
  realpaths : List (String × String) := []

/-- Host-side helper path_exists. -/
def path_exists (fs : RemoteFS) (p : String) : Bool :=
  (fs.files.lookup p).isSome

/-- Host-side helper write_keyring: record the key bytes at the path. -/
def write_keyring (fs : RemoteFS) (p : String) (key : String) : RemoteFS :=
  { fs with files := (p, key) :: fs.files }

/-- Host-side helper readline. -/
def readline (fs : RemoteFS) (p : String) : String :=
  (fs.files.lookup p).getD ""

/-- Host-side helper get_realpath. -/
def get_realpath (fs : RemoteFS) (p : String) : String :=
  (fs.realpaths.lookup p).getD p

/-- The remote bootstrap keyring path for a cluster. -/
def keyringPath (cluster : String) : String :=
  "/var/lib/ceph/bootstrap-osd/" ++ cluster ++ ".keyring"

/-- create_osd_keyring: if the remote keyring path does not exist yet,
warn and write the key there; otherwise do nothing.  Returns the new
filesystem state and the warnings emitted. -/
def create_osd_keyring (fs : RemoteFS) (cluster key : String) :
    RemoteFS × List String :=
  let path := keyringPath cluster
  if path_exists fs path then (fs, [])
  else (write_keyring fs path key,
    ["osd keyring does not exist yet, creating one"])

/-- The parameters of one prepare_disk call. -/
structure PrepareRequest where
  cluster : String
  data : String
  journal : Option String
  zap : Bool
  fs_type : String
  dmcrypt : Bool
  dmcrypt_dir : String
  storetype : String
  block_wal : Option String
  block_db : Option String
  create : Bool

/-- Python truthiness of an optional string argument (None and the
empty string are falsy). -/
def optTruthy (o : Option String) : Bool :=
  o.getD "" != ""

/-- prepare_disk: resolve the ceph-volume executable, build the lvm
create/prepare argv for the chosen store type, and hand it to
remoto.process.run.  `Except.ok argv` is the argv actually dispatched
through the process-run gateway; `Except.error` means the function
raised before dispatching anything.  The zap and dmcrypt warning
branches reference the name `logger`, which is bound nowhere in the
function or module scope (the module logger is named LOG), so reaching
either branch raises NameError. -/
def prepare_disk (conn : Conn) (r : PrepareRequest) :
    Except PyErr (List String) :=
  let exe := conn.execPath "ceph-volume"
  let args := [exe, "--cluster", r.cluster, "lvm",
    if r.create then "create" else "prepare",
    "--" ++ r.storetype, "--data", r.data]
  if r.zap then .error (.nameError "logger")
  else
    let args := if r.dmcrypt then args ++ ["--dmcrypt"] else args
    if r.dmcrypt then .error (.nameError "logger")
    else if r.storetype = "bluestore" then
      let args := args ++
        (match r.block_wal with
          | some w => if w != "" then ["--block.wal", w] else []
          | none => [])
      let args := args ++
        (match r.block_db with
          | some d => if d != "" then ["--block.db", d] else []
          | none => [])
      .ok args
    else if r.storetype = "filestore" then
      if optTruthy r.journal = false then
        .error (.runtimeError
          "A journal lv or GPT partition must be specified when using filestore")
      else .ok (args ++ ["--journal", r.journal.getD ""])
    else .ok args

/-- The distro record returned by host resolution (external
collaborator); only its presence matters to this core. -/
structure Distro where
  name : String := ""
  release : String := ""
  codename : String := ""
  init : String := ""

/-- The argparse namespace fields the prepare path reads.  `host` is a
single target host: the prepare/create subcommands accept one HOST
positional. -/
structure PrepareArgs where
  cluster : String
  host : String
  username : Option String := none
  data : Option String
  journal : Option String := none
  zap_disk : Bool := false
  fs_type : String := "xfs"
  dmcrypt : Bool := false
  dmcrypt_key_dir : String := "/etc/ceph/dmcrypt-keys"
  filestore : Bool := false
  block_wal : Option String := none
  block_db : Option String := none
  overwrite_conf : Bool := false

/-- The environment a prepare run interacts with.  `localKey` is the
content of the local cluster.bootstrap-osd.keyring file (none when the
file is missing); `hostsGet` models host resolution (connection plus
the ceph-is-installed callback), which contacts the host and may raise;
`conn`/`fs` are the target host session and filesystem; `runError`
injects the outcome of the dispatched ceph-volume process (some msg
models a non-zero exit surfacing as RuntimeError msg). -/
structure PrepEnv where
  localKey : Option String
  hostsGet : String → Except PyErr Distro
  conn : Conn
  fs : RemoteFS
  runError : Option String := none

/-- Everything observable about one prepare run: the hosts contacted
through host resolution, the argvs dispatched through the process-run
gateway, the warnings emitted, the final remote filesystem state and
the final outcome. -/
structure PrepareRun where
  attempted : List String
  dispatched : List (List String)
  warnings : List String
  fs : RemoteFS
  result : Except PyErr Unit

/-- get_bootstrap_osd_key: read the local cluster.bootstrap-osd.keyring
file; a missing file (IOError) is converted to RuntimeError. -/
def get_bootstrap_osd_key (localKey : Option String) :
    Except PyErr String :=
  match localKey with
  | some k => .ok k
  | none => .error (.runtimeError
      "bootstrap-osd keyring not found; run \x27gatherkeys\x27")

/-- The PrepareRequest that prepare builds for prepare_disk from its
argparse namespace: bluestore unless --filestore was given. -/
def prepareReqOf (args : PrepareArgs) (data : String) (create : Bool) :
    PrepareRequest :=
  { cluster := args.cluster, data := data, journal := args.journal,
    zap := args.zap_disk, fs_type := args.fs_type,
    dmcrypt := args.dmcrypt, dmcrypt_dir := args.dmcrypt_key_dir,
    storetype := if args.filestore then "filestore" else "bluestore",
    block_wal := args.block_wal, block_db := args.block_db,
    create := create }

/-- The body of the try block in prepare: check the data argument,
resolve the host (first remote contact), write the cluster config and
ensure the bootstrap keyring, run prepare_disk, dispatch its argv, then
run the health check.  Each step may raise, ending the body early. -/
def prepareBody (args : PrepareArgs) (env : PrepEnv) (key : String)
    (create : Bool) : PrepareRun :=
  match args.data with
  | none => ⟨[], [], [], env.fs, .error (.needDiskError args.host)⟩
  | some data =>
    match env.hostsGet args.host with
    | .error e => ⟨[args.host], [], [], env.fs, .error e⟩
    | .ok _ =>
      let kr := create_osd_keyring env.fs args.cluster key
      match prepare_disk env.conn (prepareReqOf args data create) with
      | .error e => ⟨[args.host], [], kr.2, kr.1, .error e⟩
      | .ok argv =>
        match env.runError with
        | some m => ⟨[args.host], [argv], kr.2, kr.1,
            .error (.runtimeError m)⟩
        | none =>
          match catch_osd_errors env.conn args.cluster with
          | .error e => ⟨[args.host], [argv], kr.2, kr.1, .error e⟩
          | .ok ws => ⟨[args.host], [argv], kr.2 ++ ws, kr.1, .ok ()⟩

/-- Which raised errors the except clause of prepare catches as a
host-level failure.  RuntimeError is caught by the source text.
Modelled from the spec: the exception-class module (ceph_deploy/exc.py)
is not in the source tree; section 7 classifies a missing data device
as a host-level operational error recorded at the host-iteration
boundary, so NeedDiskError counts as caught here. -/
def hostLevelCaught : PyErr → Bool
  | .runtimeError _ => true
  | .needDiskError _ => true
  | _ => false

/-- prepare: read the local bootstrap key (before any remote contact;
its RuntimeError propagates uncaught), then run the try body for the
single target host; a caught host-level error increments the failure
count, and a nonzero count ends the run by raising the generic failure
that carries it. -/
def prepare (args : PrepareArgs) (env : PrepEnv) (create : Bool) :
    PrepareRun :=
  match get_bootstrap_osd_key env.localKey with
  | .error e => ⟨[], [], [], env.fs, .error e⟩
  | .ok key =>
    let run := prepareBody args env key create
    match run.result with
    | .ok _ => run
    | .error e =>
      if hostLevelCaught e then
        { run with result := .error (.genericError "Failed to create 1 OSDs") }
      else run

/-- A character matched by the delimiter class of the mount-point scan:
a comma or whitespace. -/
def isSepChar (c : Char) : Bool :=
  c == ',' || c == ' ' || c == '\t' || c == '\n' || c == '\r'
    || c == '\x0b' || c == '\x0c'

/-- Worker for `pySplit`: walk the characters, either inside a
separator run (state none) or accumulating the current field in
reverse (state some acc).  Empty fields are produced at the start and
end of the line exactly as re.split produces them. -/
def pySplitAux : List Char → Option (List Char) → List String
  | [], none => [""]
  | [], some acc => [String.mk acc.reverse]
  | c :: cs, none =>
      if isSepChar c then pySplitAux cs none
      else pySplitAux cs (some [c])
  | c :: cs, some acc =>
      if isSepChar c then
        String.mk acc.reverse :: pySplitAux cs none
      else pySplitAux cs (some (c :: acc))

/-- re.split on one or more commas/whitespace, as applied to each
disk-listing line: maximal separator runs delimit the fields, with an
empty leading (trailing) field when the line starts (ends) with a
separator, and a single empty field for the empty line. -/
def pySplit (s : String) : List String :=
  pySplitAux s.toList (some [])

/-- get_osd_mount_point: scan the listing lines in order; on each line,
split into fields and run the inner loop, whose body reads the second
field before testing the current field against the OSD name.  A line
with a single field therefore raises IndexError as soon as it is
scanned; a line containing the name yields its second field; otherwise
the scan moves on, returning None after the last line. -/
def get_osd_mount_point (output : List String) (osd_name : String) :
    Except PyErr (Option String) :=
  match output with
  | [] => .ok none
  | line :: rest =>
    match pySplit line with
    | [] => get_osd_mount_point rest osd_name
    | [_] => .error .indexError
    | p0 :: p1 :: ps =>
      if osd_name ∈ p0 :: p1 :: ps then .ok (some p1)
      else get_osd_mount_point rest osd_name

/-- The mount-point scan as the specification words it: the second
field of the earliest line containing a field exactly equal to the OSD
name, and no result when no line matches. -/
def mountPointSpec (output : List String) (osd_name : String) :
    Option String :=
  match output with
  | [] => none
  | line :: rest =>
    if osd_name ∈ pySplit line then some ((pySplit line).getD 1 "")
    else mountPointSpec rest osd_name

/-- Worker for `pySplitOnChar`: split at every occurrence of the
separator, keeping empty fields, as Python str.split with an explicit
separator does. -/
def splitOnCharAux (sep : Char) : List Char → List Char → List String
  | [], acc => [String.mk acc.reverse]
  | c :: cs, acc =>
      if c = sep then String.mk acc.reverse :: splitOnCharAux sep cs []
      else splitOnCharAux sep cs (c :: acc)

/-- Python str.split on a one-character separator. -/
def pySplitOnChar (sep : Char) (s : String) : List String :=
  splitOnCharAux sep s.toList []

/-- Worker for `pyParseInt`: fold decimal digits, rejecting any other
character. -/
def digitsToNatAux : List Char → Nat → Option Nat
  | [], acc => some acc
  | c :: cs, acc =>
      if c.isDigit then digitsToNatAux cs (acc * 10 + (c.toNat - 48))
      else none

/-- A nonempty all-digit character list as a natural number. -/
def digitsToNat : List Char → Option Nat
  | [] => none
  | cs => digitsToNatAux cs 0

/-- Python int() on a string: an optional sign followed by decimal
digits; anything else is a ValueError (None here). -/
def pyParseInt (s : String) : Option Int :=
  match s.toList with
  | '-' :: rest => (digitsToNat rest).map (fun n => -(n : Int))
  | '+' :: rest => (digitsToNat rest).map (fun n => (n : Int))
  | cs => (digitsToNat cs).map (fun n => (n : Int))

/-- Modelled from the spec: the fixed local OSD-data directory whose
entries the inventory walk lists (util/constants.py is not in the
source tree). -/
def constants_osd_path : String := "/var/lib/ceph/osd"

/-- The fixed metadata files the inventory walk reads when present. -/
def interesting_files : List String :=
  ["active", "magic", "whoami", "journal_uuid"]

/-- One reconciled inventory record as osd_list assembles it before
printing: the OSD directory path, the matching topology-tree node (the
empty object when none matches) and the metadata mapping in insertion
order (device first, then the interesting files, then the journal
path). -/
structure OsdRecord where
  osd_path : String
  json_blob : Jobj
  metadata : List (String × String)

/-- Whether a topology-tree node object carries the given numeric id
(blob.get of id compared against the Python int). -/
def blobHasId (kvs : Jobj) (i : Int) : Bool :=
  match kvs.lookup "id" with
  | some (.num q) => q == (i : Rat)
  | _ => false

/-- The per-entry body of the osd_list loop: derive the numeric id from
the trailing dash-separated segment of the directory entry, derive the
OSD name, correlate the mount device from the disk-listing output, read
the interesting metadata files and the journal symlink, and merge the
last topology-tree node whose id matches.  Raised errors (a bad id
segment, a short listing line, a tree without nodes) propagate. -/
def buildOsdRecord (tree : Jobj) (fs : RemoteFS) (output : List String)
    (entry : String) : Except PyErr OsdRecord := do
  let osd_path := constants_osd_path ++ "/" ++ entry
  let journal_path := osd_path ++ "/journal"
  let idStr := (pySplitOnChar '-' entry).getLastD ""
  let _id ← match pyParseInt idStr with
    | some n => Except.ok n
    | none => Except.error PyErr.valueError
  let osd_name := "osd." ++ toString _id
  let device ← get_osd_mount_point output osd_name
  let md0 : List (String × String) :=
    match device with
    | some d => if d != "" then [("device", d)] else []
    | none => []
  let md1 := interesting_files.foldl (fun acc f =>
      let p := osd_path ++ "/" ++ f
      if path_exists fs p then acc ++ [(f, readline fs p)] else acc) md0
  let md2 := if path_exists fs journal_path then
      md1 ++ [("journal path", get_realpath fs journal_path)]
    else md1
  let nodesVal ← match tree.lookup "nodes" with
    | some v => Except.ok v
    | none => Except.error PyErr.keyError
  let nodes ← match nodesVal with
    | .arr xs => Except.ok xs
    | _ => Except.error PyErr.typeError
  let json_blob ← nodes.foldlM (fun (acc : Jobj) b =>
      match b with
      | .obj kvs => Except.ok (if blobHasId kvs _id then kvs else acc)
      | _ => Except.error PyErr.attributeError) ([] : Jobj)
  return { osd_path := osd_path, json_blob := json_blob, metadata := md2 }

/-- Whether a prepare_disk outcome dispatched an argv through the
process-run gateway. -/
def dispatchIssued : Except PyErr (List String) → Bool
  | .ok _ => true
  | .error _ => false

/-- A session whose transport times out on every captured command and
resolves every executable below /usr/sbin. -/
def connEx : Conn := ⟨fun _ => "/usr/sbin/ceph-volume", fun _ => none⟩

/-- A filestore prepare request with no journal and benign flags. -/
def reqFilestoreNoJournal : PrepareRequest :=
  { cluster := "ceph", data := "/dev/sdb", journal := none, zap := false,
    fs_type := "xfs", dmcrypt := false,
    dmcrypt_dir := "/etc/ceph/dmcrypt-keys", storetype := "filestore",
    block_wal := none, block_db := none, create := false }

/-- A bluestore prepare request with the deprecated zap flag set. -/
def reqBluestoreZap : PrepareRequest :=
  { cluster := "ceph", data := "/dev/sdb", journal := none, zap := true,
    fs_type := "xfs", dmcrypt := false,
    dmcrypt_dir := "/etc/ceph/dmcrypt-keys", storetype := "bluestore",
    block_wal := none, block_db := none, create := false }

/-- C1: a filestore prepare request with an empty journal never gets
its ceph-volume argv dispatched through the process-run gateway; with
the zap and dmcrypt flags unset it raises the journal configuration
error (RuntimeError), but with the zap flag set it instead raises
NameError on the unbound name logger before the journal validation is
reached. -/
theorem filestore_missing_journal_validation (conn : Conn)
    (r : PrepareRequest) (hs : r.storetype = "filestore")
    (hj : r.journal.getD "" = "") :
    dispatchIssued (prepare_disk conn r) = false
    ∧ (r.zap = false → r.dmcrypt = false →
        prepare_disk conn r = .error (.runtimeError
          "A journal lv or GPT partition must be specified when using filestore"))
    ∧ prepare_disk conn { r with zap := true } =
        .error (.nameError "logger") := by
  have hopt : optTruthy r.journal = false := by
    simp [optTruthy, hj]
  refine ⟨?_, ?_, ?_⟩
  · by_cases hz : r.zap
    · simp [prepare_disk, hz, dispatchIssued]
    · by_cases hd : r.dmcrypt
      · simp [prepare_disk, hz, hd, dispatchIssued]
      · simp [prepare_disk, hz, hd, hs, hopt, dispatchIssued]
  · intro hz hd
    simp [prepare_disk, hz, hd, hs, hopt]
  · simp [prepare_disk]

/-- C1 witness: the validation error and the zap-branch NameError at a
concrete filestore request with no journal. -/
theorem filestore_missing_journal_validation_witness :
    dispatchIssued (prepare_disk connEx reqFilestoreNoJournal) = false
    ∧ prepare_disk connEx reqFilestoreNoJournal = .error (.runtimeError
        "A journal lv or GPT partition must be specified when using filestore")
    ∧ prepare_disk connEx { reqFilestoreNoJournal with zap := true } =
        .error (.nameError "logger") := by
  have h := filestore_missing_journal_validation connEx
    reqFilestoreNoJournal rfl rfl
  exact ⟨h.1, h.2.1 rfl rfl, h.2.2⟩

/-- C3: a prepare request with the zap flag set makes prepare_disk
raise NameError on the unbound name logger (the deprecation-warning
branch references a name bound nowhere in scope) instead of warning and
proceeding; the argv construction itself never contains any zap
argument, as the same request with zap unset dispatches the plain
bluestore argv. -/
theorem zap_flag_raises_name_error :
    prepare_disk connEx reqBluestoreZap = .error (.nameError "logger")
    ∧ prepare_disk connEx { reqBluestoreZap with zap := false } =
        .ok ["/usr/sbin/ceph-volume", "--cluster", "ceph", "lvm",
          "prepare", "--bluestore", "--data", "/dev/sdb"] :=
  ⟨rfl, rfl⟩

/-- C4: when the transport times out during the status query (the
gateway check yields an absent result instead of a triple),
osd_status_check returns the empty status without raising, and the
health check built on it emits zero warnings. -/
theorem status_timeout_empty_no_warnings (ep : String → String)
    (cluster : String) :
    osd_status_check ⟨ep, fun _ => none⟩ cluster = []
    ∧ catch_osd_errors ⟨ep, fun _ => none⟩ cluster = .ok [] :=
  ⟨rfl, rfl⟩

/-- C7: when the remote keyring path already exists,
create_osd_keyring writes nothing and warns nothing; and from any
starting state, a second call right after a first one is a no-op, so
two calls are observationally one. -/
theorem bootstrap_keyring_idempotent (fs : RemoteFS) (c k : String)
    (h : path_exists fs (keyringPath c) = true) :
    create_osd_keyring fs c k = (fs, [])
    ∧ ∀ fs' : RemoteFS,
        create_osd_keyring (create_osd_keyring fs' c k).1 c k =
          ((create_osd_keyring fs' c k).1, []) := by
  constructor
  · simp [create_osd_keyring, h]
  · intro fs'
    by_cases h' : path_exists fs' (keyringPath c) = true
    · simp [create_osd_keyring, h']
    · have hw : path_exists (write_keyring fs' (keyringPath c) k)
          (keyringPath c) = true := by
        simp [path_exists, write_keyring, List.lookup]
      simp [create_osd_keyring, h', hw]

/-- A host filesystem that already holds the ceph bootstrap keyring. -/
def fsWithKeyring : RemoteFS :=
  { files := [("/var/lib/ceph/bootstrap-osd/ceph.keyring", "KEY")] }

/-- C7 witness: the ensure operation is a no-op on a concrete host
state that already has the keyring. -/
theorem bootstrap_keyring_idempotent_witness :
    create_osd_keyring fsWithKeyring "ceph" "KEY" = (fsWithKeyring, []) :=
  (bootstrap_keyring_idempotent fsWithKeyring "ceph" "KEY" (by decide)).1

/-- C8: with the local bootstrap keyring file missing, prepare raises
the keyring RuntimeError with no host contacted, nothing dispatched, no
warning and the remote filesystem untouched; the error is the
configuration error itself, not the per-host generic failure. -/
theorem missing_local_key_fails_before_contact (args : PrepareArgs)
    (env : PrepEnv) (create : Bool) (h : env.localKey = none) :
    prepare args env create = ⟨[], [], [], env.fs, .error (.runtimeError
      "bootstrap-osd keyring not found; run \x27gatherkeys\x27")⟩ := by
  simp [prepare, get_bootstrap_osd_key, h]

/-- An environment whose local bootstrap keyring file is missing. -/
def envNoKey : PrepEnv :=
  { localKey := none, hostsGet := fun _ => .ok {}, conn := connEx,
    fs := { files := [] } }

/-- Concrete arguments targeting a single host hostA. -/
def argsHostA : PrepareArgs :=
  { cluster := "ceph", host := "hostA", data := some "/dev/sdb" }

/-- C8 witness: the fail-fast behaviour at a concrete run with the
local key file missing. -/
theorem missing_local_key_fails_before_contact_witness :
    prepare argsHostA envNoKey false =
      ⟨[], [], [], { files := [] }, .error (.runtimeError
        "bootstrap-osd keyring not found; run \x27gatherkeys\x27")⟩ :=
  missing_local_key_fails_before_contact argsHostA envNoKey false rfl

/-- C5: the normalization done by osd_status_check (and identically by
osd_tree) keeps every key in place and rewrites exactly the fields
whose value is the literal string true or false into the corresponding
boolean, leaving every other value unchanged. -/
theorem status_normalization_pointwise (ep : String → String) (j : Jobj)
    (cluster : String) :
    List.Forall₂ (fun kv kv' => kv'.1 = kv.1
        ∧ (kv.2 = .str "true" → kv'.2 = .bool true)
        ∧ (kv.2 = .str "false" → kv'.2 = .bool false)
        ∧ (kv.2 ≠ .str "true" → kv.2 ≠ .str "false" → kv'.2 = kv.2))
      j (osd_status_check ⟨ep, fun _ => some (.ok j)⟩ cluster)
    ∧ osd_tree ⟨ep, fun _ => some (.ok j)⟩ cluster =
        .ok (osd_status_check ⟨ep, fun _ => some (.ok j)⟩ cluster) := by
  constructor
  · show List.Forall₂ _ j (normalizeBools j)
    rw [normalizeBools, List.forall₂_map_right_iff]
    rw [List.forall₂_same]
    rintro ⟨key, v⟩ _
    refine ⟨rfl, ?_, ?_, ?_⟩
    · intro hv; rw [hv]; rfl
    · intro hv; rw [hv]; rfl
    · intro h1 h2
      cases v with
      | str s =>
        have hs1 : s ≠ "true" := by
          intro e; exact h1 (by rw [e])
        have hs2 : s ≠ "false" := by
          intro e; exact h2 (by rw [e])
        simp [normalizeBool, hs1, hs2]
      | num q => rfl
      | bool b => rfl
      | null => rfl
      | arr xs => rfl
      | obj kvs => rfl
  · rfl

/-- A status payload exercising each normalization case. -/
def statusPayload : Jobj :=
  [("epoch", .num 8), ("num_osds", .num 1), ("num_up_osds", .num 1),
   ("num_in_osds", .str "1"), ("full", .str "false"),
   ("nearfull", .str "true")]

/-- C5 witness: the pointwise normalization property at a concrete
payload holding string booleans, a numeric string and numbers. -/
theorem status_normalization_pointwise_witness :
    List.Forall₂ (fun kv kv' => kv'.1 = kv.1
        ∧ (kv.2 = .str "true" → kv'.2 = .bool true)
        ∧ (kv.2 = .str "false" → kv'.2 = .bool false)
        ∧ (kv.2 ≠ .str "true" → kv.2 ≠ .str "false" → kv'.2 = kv.2))
      statusPayload
      (osd_status_check ⟨fun _ => "ceph", fun _ => some (.ok statusPayload)⟩
        "ceph")
    ∧ osd_tree ⟨fun _ => "ceph", fun _ => some (.ok statusPayload)⟩ "ceph" =
        .ok (osd_status_check
          ⟨fun _ => "ceph", fun _ => some (.ok statusPayload)⟩ "ceph") :=
  status_normalization_pointwise (fun _ => "ceph") statusPayload "ceph"

/-- Python int() of an integer JSON number is that integer. -/
theorem pyIntOf_intCast (n : Int) : pyIntOf (.num (n : Rat)) = .ok n := by
  simp [pyIntOf, pyTrunc, Rat.num_intCast, Rat.den_intCast]

/-- Binding a successful Except value just applies the continuation. -/
theorem except_bind_ok {α β : Type} (a : α) (f : α → Except PyErr β) :
    (Except.ok a : Except PyErr α) >>= f = f a := rfl

/-- A session whose status query reports n OSDs with u of them up and
all of them in. -/
def statusConnNums (n u : Int) : Conn :=
  ⟨fun _ => "ceph", fun _ => some (.ok
    [("num_osds", .num (n : Rat)), ("num_up_osds", .num (u : Rat)),
     ("num_in_osds", .num (n : Rat))])⟩

/-- C6: whenever fewer OSDs are up than exist, the health check emits
one down warning whose verb and plural are computed from the
difference, the singular form appearing exactly when the difference is
one. -/
theorem down_warning_grammatical_number (n u : Int) (h : u < n) :
    catch_osd_errors (statusConnNums n u) "ceph" =
      .ok ["there " ++ (if n - u = 1 then "is" else "are") ++ " "
        ++ toString (n - u) ++ " OSD"
        ++ (if n - u = 1 then "" else "s") ++ " down"] := by
  have hst : osd_status_check (statusConnNums n u) "ceph" =
      [("num_osds", .num (n : Rat)), ("num_up_osds", .num (u : Rat)),
       ("num_in_osds", .num (n : Rat))] := by
    simp [osd_status_check, statusConnNums, normalizeBools, normalizeBool]
  unfold catch_osd_errors
  rw [hst]
  simp [getIntField, getFlagField, List.lookup, pyIntOf_intCast]
  simp only [except_bind_ok]
  rw [if_pos h, if_neg (lt_irrefl n)]
  simp only [List.append_nil]
  by_cases he : n - u = 1
  · simp [diffWarning, he]
    rfl
  · simp [diffWarning, he]
    rw [String.append_assoc, show (" " ++ "down" : String) = " down" from rfl]

/-- C6 witness: the concrete plural warning at 5 total and 3 up, and
the concrete singular warning at 5 total and 4 up. -/
theorem down_warning_grammatical_number_witness :
    catch_osd_errors (statusConnNums 5 3) "ceph" =
      .ok ["there are 2 OSDs down"]
    ∧ catch_osd_errors (statusConnNums 5 4) "ceph" =
      .ok ["there is 1 OSD down"] := by
  refine ⟨?_, ?_⟩
  · rw [down_warning_grammatical_number 5 3 (by decide)]
    rfl
  · rw [down_warning_grammatical_number 5 4 (by decide)]
    rfl

/-- C10: on output whose every line splits into at least two fields,
the mount-point scan is total and returns exactly what the
specification words say (the second field of the earliest line with a
field equal to the OSD name, or nothing); and the two-field
precondition is needed, since a one-field line sitting before the first
match raises IndexError instead. -/
theorem mount_point_scan_total_on_wide_lines (output : List String)
    (osd_name : String) (h : ∀ l ∈ output, 2 ≤ (pySplit l).length) :
    get_osd_mount_point output osd_name =
      .ok (mountPointSpec output osd_name)
    ∧ get_osd_mount_point ["x", "a osd.3"] "osd.3" =
        .error .indexError := by
  constructor
  · induction output with
    | nil => rfl
    | cons line rest ih =>
      have hl : 2 ≤ (pySplit line).length :=
        h line (List.mem_cons_self _ _)
      have hrest : ∀ l ∈ rest, 2 ≤ (pySplit l).length :=
        fun l hm => h l (List.mem_cons_of_mem _ hm)
      rcases hp : pySplit line with - | ⟨p0, - | ⟨p1, ps⟩⟩
      · rw [hp] at hl; exact absurd hl (by simp)
      · rw [hp] at hl; exact absurd hl (by simp)
      · by_cases hm : osd_name ∈ p0 :: p1 :: ps
        · simp [get_osd_mount_point, mountPointSpec, hp, hm]
        · simp [get_osd_mount_point, mountPointSpec, hp, hm, ih hrest]
  · rfl

/-- C10 witness: the scan at a concrete listing line with a leading
separator (the second field is the partition device), together with the
concrete IndexError input. -/
theorem mount_point_scan_witness :
    get_osd_mount_point [" /dev/sdb1 ceph data, osd.7"] "osd.7" =
      .ok (some "/dev/sdb1")
    ∧ get_osd_mount_point ["x", "a osd.3"] "osd.3" =
        .error .indexError := by
  have h := mount_point_scan_total_on_wide_lines
    [" /dev/sdb1 ceph data, osd.7"] "osd.7" (by decide)
  exact ⟨h.1.trans (by rfl), h.2⟩

/-- Arguments targeting the single host named host1 (of an intended
fleet host1, host2, host3). -/
def prepArgsHost1 : PrepareArgs :=
  { cluster := "ceph", host := "host1", data := some "/dev/sdb" }

/-- An environment where the local key exists, the host resolves, and
the dispatched ceph-volume run fails with a non-zero exit. -/
def envRunFail : PrepEnv :=
  { localKey := some "KEY", hostsGet := fun _ => .ok {}, conn := connEx,
    fs := { files := [] },
    runError := some "command returned non-zero exit status" }

/-- C2 counterexample: a prepare run covers exactly its one target
host; in a concrete failing run against host1, the other hosts of the
intended three-host fleet are never attempted, and the run ends with
the generic failure carrying count 1 after that single attempt. -/
theorem single_host_failure_no_batch_counterexample :
    (prepare prepArgsHost1 envRunFail false).attempted = ["host1"]
    ∧ "host2" ∉ (prepare prepArgsHost1 envRunFail false).attempted
    ∧ (prepare prepArgsHost1 envRunFail false).result =
        .error (.genericError "Failed to create 1 OSDs") := by
  have h1 : (prepare prepArgsHost1 envRunFail false).attempted =
      ["host1"] := rfl
  exact ⟨h1, by rw [h1]; decide, rfl⟩

/-- C2 amended: prepare processes exactly one target host per run;
when that host fails with a host-level error (here a non-zero exit of
the dispatched command), the error is caught after the attempt and the
run ends by raising the single generic failure carrying the count 1. -/
theorem single_host_failure_aggregation (args : PrepareArgs)
    (env : PrepEnv) (create : Bool) (k d msg : String) (dist : Distro)
    (hk : env.localKey = some k) (hd : args.data = some d)
    (hg : env.hostsGet args.host = .ok dist)
    (hz : args.zap_disk = false) (hdm : args.dmcrypt = false)
    (hf : args.filestore = false) (hr : env.runError = some msg) :
    (prepare args env create).attempted = [args.host]
    ∧ (prepare args env create).result =
        .error (.genericError "Failed to create 1 OSDs") := by
  simp [prepare, prepareBody, get_bootstrap_osd_key, hk, hd, hg,
    prepareReqOf, prepare_disk, hz, hdm, hf, hr, hostLevelCaught]

/-- C2 witness: the amended behaviour at a concrete run against hostA
whose dispatched command fails. -/
theorem single_host_failure_aggregation_witness :
    (prepare argsHostA { envRunFail with localKey := some "KEY" } false).attempted
      = ["hostA"]
    ∧ (prepare argsHostA { envRunFail with localKey := some "KEY" } false).result
      = .error (.genericError "Failed to create 1 OSDs") :=
  single_host_failure_aggregation argsHostA
    { envRunFail with localKey := some "KEY" } false "KEY" "/dev/sdb"
    "command returned non-zero exit status" {} rfl rfl rfl rfl rfl rfl rfl

/-- The disk-listing line of the inventory-correlation scenario,
exactly as the specification quotes it. -/
def c9line : String :=
  "/dev/sdb1 ceph data, active, cluster ceph, osd.1, journal /dev/sdb2"

/-- The topology tree of the inventory-correlation scenario. -/
def c9tree : Jobj :=
  [("nodes", .arr [.obj [("id", .num 1), ("name", .str "osd.1"),
    ("status", .str "up"), ("reweight", .num 1)]])]

/-- The data-host filesystem of the inventory-correlation scenario:
directory entry ceph-1 with whoami and active files. -/
def c9fs : RemoteFS :=
  { files := [("/var/lib/ceph/osd/ceph-1/whoami", "1"),
              ("/var/lib/ceph/osd/ceph-1/active", "ok")] }

/-- C9 counterexample: on the exact quoted listing line the correlated
device is the second comma/whitespace-delimited field ceph — the line
starts with /dev/sdb1, so its second field is ceph, and /dev/sdb is not
among its fields at all — not the /dev/sdb the claim expects. -/
theorem inventory_device_counterexample :
    (buildOsdRecord c9tree c9fs [c9line] "ceph-1").map
      (fun r => r.metadata.lookup "device") = .ok (some "ceph")
    ∧ ("ceph" : String) ≠ "/dev/sdb"
    ∧ "/dev/sdb" ∉ pySplit c9line := by
  refine ⟨rfl, by decide, by decide⟩

/-- C9 amended: on the scenario instance the record for OSD id 1
carries device ceph (the second field of the quoted line under the
comma/whitespace split), status up, reweight 1.0 and the metadata keys
active and whoami read from the local files, in insertion order. -/
theorem inventory_record_correlation :
    (buildOsdRecord c9tree c9fs [c9line] "ceph-1").map (fun r =>
      (r.osd_path, r.metadata, r.json_blob.lookup "status",
        r.json_blob.lookup "reweight", r.json_blob.lookup "name")) =
    .ok ("/var/lib/ceph/osd/ceph-1",
      [("device", "ceph"), ("active", "ok"), ("whoami", "1")],
      some (.str "up"), some (.num 1), some (.str "osd.1")) := rfl
